import Mathlib

/-!
Verification of the desktop shell launcher in
src/desktop-app/src-tauri/src/main.rs.

The launcher reads the environment variable ROYALTIES_URL (defaulting to
a local development URL), parses it as an absolute URL, asks the host
runtime (tauri) to build a single fixed-geometry window pointed at that
URL, and hands control to the host event loop.  We embed the launcher as
pure functions over an explicit environment-lookup result and an explicit
host runtime, and record the window requests it makes.
-/

/-- Result of the call std::env::var of ROYALTIES_URL (main.rs line 11).
Rust's env::var either returns the value, or fails because the variable
is not present, or fails because its value is not valid Unicode; the
source's unwrap_or_else treats both failures alike. -/
inductive EnvLookup where
  | ok (v : String)
  | errNotPresent
  | errNotUnicode
  deriving DecidableEq

/-- main.rs lines 11 and 12: the value of ROYALTIES_URL when the lookup
succeeded, otherwise the literal default. -/
def resolveUrl : EnvLookup → String
  | .ok v => v
  | .errNotPresent => "http://localhost:3000"
  | .errNotUnicode => "http://localhost:3000"

/-- A successfully parsed absolute URL.  The launcher never inspects its
components, so we keep the parsed text. -/
structure Url where
  raw : String
  deriving DecidableEq

/-- First character of a URL scheme: an ASCII letter. -/
def isSchemeStartChar (c : Char) : Bool := c.isAlpha

/-- Subsequent character of a URL scheme. -/
def isSchemeChar (c : Char) : Bool :=
  c.isAlphanum || c == '+' || c == '-' || c == '.'

/-- Split a character list at its first colon, returning the parts
before and after it; none when there is no colon. -/
def splitAtColon : List Char → Option (List Char × List Char)
  | [] => none
  | c :: cs =>
    if c = ':' then some ([], cs)
    else
      match splitAtColon cs with
      | some (pre, post) => some (c :: pre, post)
      | none => none

/-- A valid URL scheme: nonempty, starts with a letter, continues with
letters, digits, plus, minus or dot. -/
def validScheme : List Char → Bool
  | [] => false
  | c :: cs => isSchemeStartChar c && cs.all isSchemeChar

/-- Modelled from the spec: the parse call at main.rs line 17 invokes the
external url crate, which is not part of this repository.  The spec
requires the resolved string to parse as a valid absolute URL, so we
model an absolute URL as a valid scheme, a colon, and a remainder, where
a remainder opening with two slashes must carry a nonempty authority.
Failure yields none; success keeps the input text unmodified. -/
def parseUrl (s : String) : Option Url :=
  match splitAtColon s.toList with
  | none => none
  | some (sch, rest) =>
    if validScheme sch then
      if rest.take 2 = ['/', '/'] then
        if ((rest.drop 2).takeWhile
            (fun c => !(c == '/' || c == '?' || c == '#'))).isEmpty then
          none
        else some (Url.mk s)
      else some (Url.mk s)
    else none

/-- The configuration of one window request, main.rs lines 14 to 21.
The source writes the sizes as the float literals 1200.0, 800.0, 900.0
and 600.0, all exactly integral, so we carry them as naturals. -/
structure WindowConfig where
  label : String
  url : Url
  title : String
  width : Nat
  height : Nat
  minWidth : Nat
  minHeight : Nat
  deriving DecidableEq

/-- main.rs lines 14 to 21: the WindowBuilder call with label "main" and
external content URL, followed by the title, inner_size and
min_inner_size builder calls. -/
def mkWindowConfig (u : Url) : WindowConfig :=
  ⟨"main", u, "Royalties - Whales Music", 1200, 800, 900, 600⟩

/-- The host runtime (tauri), an external collaborator exposing one
capability: build a window from a configuration, reporting success or an
error message (the result of the build call at main.rs line 22). -/
def HostRuntime : Type := WindowConfig → Except String Unit

/-- Outcome of the launcher: the unwrap at main.rs line 17 panics on a
parse failure; a build error propagates through the question mark at
line 22; otherwise the window is live and the event loop runs. -/
inductive StartOutcome where
  | parseFailure (diag : String)
  | buildFailure (diag : String)
  | launched (cfg : WindowConfig)
  deriving DecidableEq

/-- The outcome of the setup closure of main.rs lines 10 to 25, together
with the window-build requests issued to the host runtime and the
windows actually created. -/
structure StartTrace where
  outcome : StartOutcome
  requested : List WindowConfig
  created : List WindowConfig
  deriving DecidableEq

/-- main.rs lines 10 to 25: resolve the URL, parse it (fatal on
failure), request one window build from the host runtime, and propagate
the host's verdict.  No branch issues a second request. -/
def startTrace (env : EnvLookup) (host : HostRuntime) : StartTrace :=
  match parseUrl (resolveUrl env) with
  | none => ⟨.parseFailure ("invalid URL: " ++ resolveUrl env), [], []⟩
  | some u =>
    match host (mkWindowConfig u) with
    | .error e => ⟨.buildFailure e, [mkWindowConfig u], []⟩
    | .ok _ => ⟨.launched (mkWindowConfig u),
                [mkWindowConfig u], [mkWindowConfig u]⟩

/-- The outcome of the launcher, forgetting the request trace. -/
def start (env : EnvLookup) (host : HostRuntime) : StartOutcome :=
  (startTrace env host).outcome

/-- How the process ends: its exit status and the diagnostic written to
the error output, if any. -/
structure ProcessEnd where
  status : Nat
  diag : Option String
  deriving DecidableEq

/-- Whole-process behaviour of main.  A startup failure panics (the
unwrap at main.rs line 17 or the expect at line 27), which ends the
process with Rust's panic exit status 101 and a diagnostic on the error
output; on success the event loop of main.rs line 26 runs until the
user closes the window, the only modelled way it ends, after which the
process exits with status 0. -/
def runProcess (env : EnvLookup) (host : HostRuntime) : ProcessEnd :=
  match start env host with
  | .parseFailure d => ⟨101, some d⟩
  | .buildFailure d => ⟨101, some ("error while running tauri application: " ++ d)⟩
  | .launched _ => ⟨0, none⟩

/-- The lifecycle states of the launcher as the spec names them. -/
inductive LState where
  | initializing
  | running
  | terminatedOk
  | terminatedErr
  deriving DecidableEq

/-- The sequence of lifecycle states a process run passes through: it
starts initializing; on a successful window build it enters running and,
when the user closes the window, terminates normally; any startup
failure moves it directly to error termination. -/
def lifecycle (env : EnvLookup) (host : HostRuntime) : List LState :=
  match start env host with
  | .launched _ => [.initializing, .running, .terminatedOk]
  | _ => [.initializing, .terminatedErr]

/-- A host runtime whose window build always succeeds. -/
def okHost : HostRuntime := fun _ => .ok ()

/-- A host runtime whose window build always fails, as when the platform
window system is unavailable. -/
def failHost : HostRuntime := fun _ => .error "window system unavailable"

/-- A successful parse keeps the input text unmodified. -/
theorem parseUrl_raw (s : String) (u : Url) (h : parseUrl s = some u) :
    u.raw = s := by
  unfold parseUrl at h
  split at h
  · simp at h
  · split at h
    · split at h
      · split at h
        · simp at h
        · rw [Option.some_inj.mp h.symm]
      · rw [Option.some_inj.mp h.symm]
    · simp at h

/-- When the resolved URL fails to parse, the launcher stops with a
parse failure and no window request. -/
theorem startTrace_of_parse_none (env : EnvLookup) (host : HostRuntime)
    (hp : parseUrl (resolveUrl env) = none) :
    startTrace env host =
      ⟨.parseFailure ("invalid URL: " ++ resolveUrl env), [], []⟩ := by
  unfold startTrace
  rw [hp]

/-- When the resolved URL parses, the launcher issues exactly one window
request and propagates the host's verdict. -/
theorem startTrace_of_parse_some (env : EnvLookup) (host : HostRuntime)
    (u : Url) (hp : parseUrl (resolveUrl env) = some u) :
    startTrace env host =
      match host (mkWindowConfig u) with
      | .error e => ⟨.buildFailure e, [mkWindowConfig u], []⟩
      | .ok _ => ⟨.launched (mkWindowConfig u),
                  [mkWindowConfig u], [mkWindowConfig u]⟩ := by
  unfold startTrace
  rw [hp]

/-- A launched outcome comes from a successful parse, and the window is
the fixed configuration around the parsed URL. -/
theorem start_launched_inv (env : EnvLookup) (host : HostRuntime)
    (cfg : WindowConfig) (h : start env host = .launched cfg) :
    ∃ u, parseUrl (resolveUrl env) = some u ∧ cfg = mkWindowConfig u := by
  unfold start at h
  cases hp : parseUrl (resolveUrl env) with
  | none => rw [startTrace_of_parse_none env host hp] at h; simp at h
  | some u =>
    rw [startTrace_of_parse_some env host u hp] at h
    cases hh : host (mkWindowConfig u) with
    | error e => rw [hh] at h; simp at h
    | ok v =>
      rw [hh] at h
      simp only [StartOutcome.launched.injEq] at h
      exact ⟨u, rfl, h.symm⟩

/-- C1: for every resolved URL string that fails to parse, the process
terminates with the nonzero panic status 101 and a diagnostic on the
error output, and no window is requested or created before termination. -/
theorem claim1_invalid_url_fatal (env : EnvLookup) (host : HostRuntime)
    (h : parseUrl (resolveUrl env) = none) :
    (runProcess env host).status = 101 ∧
    (runProcess env host).diag.isSome = true ∧
    (startTrace env host).requested = [] ∧
    (startTrace env host).created = [] := by
  have ht := startTrace_of_parse_none env host h
  refine ⟨?_, ?_, ?_, ?_⟩ <;> simp [runProcess, start, ht]

/-- C1 witness: with ROYALTIES_URL set to the string "not a url",
parsing fails, the process exits 101 with a diagnostic, and no window is
requested or created. -/
theorem claim1_invalid_url_fatal_witness :
    parseUrl (resolveUrl (.ok "not a url")) = none ∧
    ((runProcess (.ok "not a url") okHost).status = 101 ∧
     (runProcess (.ok "not a url") okHost).diag.isSome = true ∧
     (startTrace (.ok "not a url") okHost).requested = [] ∧
     (startTrace (.ok "not a url") okHost).created = []) :=
  ⟨by decide, claim1_invalid_url_fatal (.ok "not a url") okHost (by decide)⟩

/-- C2: when the ROYALTIES_URL lookup fails, because the variable is
unset or its value is unreadable, the resolved URL is exactly the
literal default. -/
theorem claim2_default_url :
    resolveUrl .errNotPresent = "http://localhost:3000" ∧
    resolveUrl .errNotUnicode = "http://localhost:3000" :=
  ⟨rfl, rfl⟩

/-- C3: a present readable value is used unmodified: the resolved URL is
exactly the variable's value and, whenever a window is launched, its
content source carries that very string. -/
theorem claim3_env_value_unmodified (v : String) (host : HostRuntime)
    (cfg : WindowConfig) (h : start (.ok v) host = .launched cfg) :
    resolveUrl (.ok v) = v ∧ cfg.url.raw = v := by
  refine ⟨rfl, ?_⟩
  obtain ⟨u, hp, hcfg⟩ := start_launched_inv _ _ _ h
  have hraw : u.raw = resolveUrl (.ok v) := parseUrl_raw _ _ hp
  rw [hcfg]
  exact hraw

/-- C3 witness: with ROYALTIES_URL set to https://example.com/app the
window launches and its content source is exactly that string. -/
theorem claim3_env_value_unmodified_witness :
    start (.ok "https://example.com/app") okHost =
      .launched (mkWindowConfig (Url.mk "https://example.com/app")) ∧
    (resolveUrl (.ok "https://example.com/app") = "https://example.com/app" ∧
     (mkWindowConfig (Url.mk "https://example.com/app")).url.raw =
       "https://example.com/app") :=
  ⟨by decide,
   claim3_env_value_unmodified "https://example.com/app" okHost _ (by decide)⟩

/-- C4: every window request carries identifier "main", the fixed title
and the fixed initial and minimum sizes, whatever the URL resolved to. -/
theorem claim4_fixed_window_params (env : EnvLookup) (host : HostRuntime)
    (cfg : WindowConfig) (h : cfg ∈ (startTrace env host).requested) :
    cfg.label = "main" ∧ cfg.title = "Royalties - Whales Music" ∧
    cfg.width = 1200 ∧ cfg.height = 800 ∧
    cfg.minWidth = 900 ∧ cfg.minHeight = 600 := by
  cases hp : parseUrl (resolveUrl env) with
  | none => rw [startTrace_of_parse_none env host hp] at h; simp at h
  | some u =>
    rw [startTrace_of_parse_some env host u hp] at h
    have hc : cfg = mkWindowConfig u := by
      cases hh : host (mkWindowConfig u) <;> rw [hh] at h <;> simpa using h
    subst hc
    exact ⟨rfl, rfl, rfl, rfl, rfl, rfl⟩

/-- C4 witness: the window requested for the default URL has the fixed
identifier, title and sizes. -/
theorem claim4_fixed_window_params_witness :
    mkWindowConfig (Url.mk "http://localhost:3000") ∈
      (startTrace .errNotPresent okHost).requested ∧
    ((mkWindowConfig (Url.mk "http://localhost:3000")).label = "main" ∧
     (mkWindowConfig (Url.mk "http://localhost:3000")).title =
       "Royalties - Whales Music" ∧
     (mkWindowConfig (Url.mk "http://localhost:3000")).width = 1200 ∧
     (mkWindowConfig (Url.mk "http://localhost:3000")).height = 800 ∧
     (mkWindowConfig (Url.mk "http://localhost:3000")).minWidth = 900 ∧
     (mkWindowConfig (Url.mk "http://localhost:3000")).minHeight = 600) :=
  ⟨by decide, claim4_fixed_window_params .errNotPresent okHost _ (by decide)⟩

/-- C5: when the host runtime reports a window-creation failure the
launcher propagates it: exactly one build request was issued, no window
was created, the running state is never entered, and the process exits
with the nonzero panic status. -/
theorem claim5_build_failure_propagates (env : EnvLookup) (u : Url)
    (e : String) (host : HostRuntime)
    (hp : parseUrl (resolveUrl env) = some u)
    (hh : host (mkWindowConfig u) = .error e) :
    start env host = .buildFailure e ∧
    (startTrace env host).requested = [mkWindowConfig u] ∧
    (startTrace env host).created = [] ∧
    lifecycle env host = [.initializing, .terminatedErr] ∧
    (runProcess env host).status = 101 := by
  have ht : startTrace env host = ⟨.buildFailure e, [mkWindowConfig u], []⟩ := by
    rw [startTrace_of_parse_some env host u hp, hh]
  refine ⟨?_, ?_, ?_, ?_, ?_⟩ <;> simp [start, lifecycle, runProcess, ht]

/-- C5 witness: with the variable unset and a host whose build fails,
the launcher terminates in error without entering the running state. -/
theorem claim5_build_failure_propagates_witness :
    (parseUrl (resolveUrl .errNotPresent) =
       some (Url.mk "http://localhost:3000") ∧
     failHost (mkWindowConfig (Url.mk "http://localhost:3000")) =
       .error "window system unavailable") ∧
    (start .errNotPresent failHost =
       .buildFailure "window system unavailable" ∧
     (startTrace .errNotPresent failHost).requested =
       [mkWindowConfig (Url.mk "http://localhost:3000")] ∧
     (startTrace .errNotPresent failHost).created = [] ∧
     lifecycle .errNotPresent failHost = [.initializing, .terminatedErr] ∧
     (runProcess .errNotPresent failHost).status = 101) :=
  ⟨⟨by decide, rfl⟩,
   claim5_build_failure_propagates .errNotPresent
     (Url.mk "http://localhost:3000") "window system unavailable" failHost
     (by decide) rfl⟩

/-- C6: the process exits with status 0 exactly when startup succeeded
and the run ended with the user closing the window, and then without a
diagnostic; any startup failure exits with the nonzero panic status and
a diagnostic on the error output. -/
theorem claim6_exit_codes (env : EnvLookup) (host : HostRuntime) :
    ((runProcess env host).status = 0 ↔
      ∃ cfg, start env host = .launched cfg) ∧
    ((runProcess env host).status = 0 → (runProcess env host).diag = none) ∧
    ((runProcess env host).status ≠ 0 →
      (runProcess env host).status = 101 ∧
      (runProcess env host).diag.isSome = true) := by
  cases hs : start env host <;> simp [runProcess, hs]

/-- C6 witness: an invalid URL makes the process exit with the nonzero
panic status and a diagnostic. -/
theorem claim6_exit_codes_witness :
    (runProcess (.ok "not a url") failHost).status ≠ 0 ∧
    ((runProcess (.ok "not a url") failHost).status = 101 ∧
     (runProcess (.ok "not a url") failHost).diag.isSome = true) :=
  ⟨by decide, (claim6_exit_codes (.ok "not a url") failHost).2.2 (by decide)⟩

/-- C7: the lifecycle is strictly linear and single-shot: it starts in
the initializing state and never returns to it, it enters the running
state exactly when the window build succeeded, any failure moves it
directly to error termination, and the whole trace is one of the two
linear runs. -/
theorem claim7_linear_lifecycle (env : EnvLookup) (host : HostRuntime) :
    (lifecycle env host).head? = some .initializing ∧
    (∀ s ∈ (lifecycle env host).tail, s ≠ LState.initializing) ∧
    (LState.running ∈ lifecycle env host ↔
      ∃ cfg, start env host = .launched cfg) ∧
    ((∀ cfg, ¬ start env host = .launched cfg) →
      lifecycle env host = [.initializing, .terminatedErr]) ∧
    (lifecycle env host = [.initializing, .running, .terminatedOk] ∨
     lifecycle env host = [.initializing, .terminatedErr]) := by
  cases hs : start env host <;> simp [lifecycle, hs]

/-- C7 witness: with an unparsable URL the lifecycle is the linear
failing run, never entering the running state. -/
theorem claim7_linear_lifecycle_witness :
    (∀ cfg, ¬ start (.ok "") okHost = .launched cfg) ∧
    lifecycle (.ok "") okHost = [.initializing, .terminatedErr] := by
  have hs : start (.ok "") okHost = .parseFailure ("invalid URL: " ++ "") := rfl
  have hn : ∀ cfg, ¬ start (.ok "") okHost = .launched cfg := by
    intro cfg hc
    rw [hs] at hc
    exact StartOutcome.noConfusion hc
  exact ⟨hn, (claim7_linear_lifecycle (.ok "") okHost).2.2.2.1 hn⟩

/-- C8: the hardcoded default parses as an absolute URL, so with the
variable unset or unreadable the parse-failure branch is unreachable and
the window request is always issued. -/
theorem claim8_default_always_parses (host : HostRuntime) :
    parseUrl "http://localhost:3000" = some (Url.mk "http://localhost:3000") ∧
    (startTrace .errNotPresent host).requested =
      [mkWindowConfig (Url.mk "http://localhost:3000")] ∧
    (startTrace .errNotUnicode host).requested =
      [mkWindowConfig (Url.mk "http://localhost:3000")] := by
  have hp : parseUrl (resolveUrl .errNotPresent) =
      some (Url.mk "http://localhost:3000") := by decide
  have hp2 : parseUrl (resolveUrl .errNotUnicode) =
      some (Url.mk "http://localhost:3000") := by decide
  refine ⟨by decide, ?_, ?_⟩
  · rw [startTrace_of_parse_some _ host _ hp]
    cases hh : host (mkWindowConfig (Url.mk "http://localhost:3000")) <;> rfl
  · rw [startTrace_of_parse_some _ host _ hp2]
    cases hh : host (mkWindowConfig (Url.mk "http://localhost:3000")) <;> rfl

/-- C9: an empty ROYALTIES_URL value counts as present, so the default
is not substituted, the empty string fails to parse and startup fails
with no window requested; a successful lookup is never replaced by the
default, whatever its value. -/
theorem claim9_empty_value_fails (v : String) (host : HostRuntime) :
    resolveUrl (.ok v) = v ∧
    parseUrl "" = none ∧
    start (.ok "") host = .parseFailure ("invalid URL: " ++ "") ∧
    (startTrace (.ok "") host).requested = [] ∧
    (runProcess (.ok "") host).status = 101 := by
  have ht := startTrace_of_parse_none (.ok "") host (by decide)
  refine ⟨rfl, by decide, ?_, ?_, ?_⟩
  · unfold start
    rw [ht]
    decide
  · rw [ht]
  · simp [runProcess, start, ht]

/-- C10: the window request depends only on the observed ROYALTIES_URL
lookup result: two runs whose resolved URLs agree issue identical window
requests with identical parameters, whatever their host runtimes do. -/
theorem claim10_requests_depend_only_on_env (e1 e2 : EnvLookup)
    (h1 h2 : HostRuntime) (h : resolveUrl e1 = resolveUrl e2) :
    (startTrace e1 h1).requested = (startTrace e2 h2).requested := by
  cases hp : parseUrl (resolveUrl e2) with
  | none =>
    rw [startTrace_of_parse_none e1 h1 (by rw [h]; exact hp),
        startTrace_of_parse_none e2 h2 hp]
  | some u =>
    rw [startTrace_of_parse_some e1 h1 u (by rw [h]; exact hp),
        startTrace_of_parse_some e2 h2 u hp]
    cases hh1 : h1 (mkWindowConfig u) <;> cases hh2 : h2 (mkWindowConfig u) <;>
      rfl

/-- C10 witness: an unset variable and an unreadable one resolve to the
same URL, and two different host runtimes receive the identical window
request. -/
theorem claim10_requests_depend_only_on_env_witness :
    resolveUrl .errNotPresent = resolveUrl .errNotUnicode ∧
    (startTrace .errNotPresent okHost).requested =
      (startTrace .errNotUnicode failHost).requested :=
  ⟨rfl, claim10_requests_depend_only_on_env .errNotPresent .errNotUnicode
    okHost failHost rfl⟩
